import Mathlib

/-!
# UnFoldAI session state-synchronization controller: a verification development

A shallow embedding of the client-side session controller of the UnFoldAI
repository, covering the session controller (`ChatInterface`), the artifact
version store (`ArtifactCanvas`) and the mention/attachment resolver, with
theorems settling the spec claims about them.

Conventions of the embedding:
* React `useState` cells are gathered into explicit state records; each event
  handler becomes a pure function from the old state (plus the closure-captured
  values it reads) to the new state.
* JavaScript numbers used as indices and versions are modelled as `Nat`
  (`Int` where the source stores the `-1` sentinel); timestamps in
  milliseconds as `Nat`; the `ms / 1000` duration division as `Nat` division.
* JavaScript string indices are UTF-16 code-unit indices; the embedding uses
  character lists, which coincide for the ASCII inputs of the claims.
* `null`/`undefined`-able values become `Option`; the `x || y` idiom on
  object-typed values becomes an `Option` match (objects are always truthy).
-/

/-- Message author role (`"user" | "assistant"`). -/
inductive Role where
  | user : Role
  | assistant : Role
deriving Repr, DecidableEq

/-- `ResearchTask` from `types`: `{task: string, id?: number}`. -/
structure ResearchTask where
  task : String
  id : Option Nat := none
deriving Repr, DecidableEq

/-- `ResearchProgress` from `types`. `duration` in seconds, client-attached. -/
structure ResearchProgress where
  current_step : Nat
  total_steps : Nat
  label : String
  visual : String
  tasks : Option (List ResearchTask) := none
  duration : Option Nat := none
deriving Repr, DecidableEq

/-- `ChatMessage` from `types`. -/
structure ChatMessage where
  id : String
  role : Role
  content : String
  timestamp : String
  isResearching : Option Bool := none
  researchProgress : Option ResearchProgress := none
deriving Repr, DecidableEq

/-- `AttachedFile` as used by `ChatInterface`: `{id, filename}`. -/
structure AttachedFile where
  id : String
  filename : String
deriving Repr, DecidableEq

/-- `User` from `types/user` (fields beyond `id` are irrelevant to the
controller, which only reads `currentUser.id` and truthiness). -/
structure User where
  id : String
  name : String := ""
  email : String := ""
deriving Repr, DecidableEq

/-- `PlanSection.content`: `string | string[] | Record<string, any>`, the
tagged union the duck-typed source discriminates with `typeof`/`Array.isArray`. -/
inductive SectionContent where
  | text : String → SectionContent
  | list : List SectionContent → SectionContent
  | mapping : List (String × SectionContent) → SectionContent

/-- `PlanSection` from `types`: `{title, content}`. -/
structure PlanSection where
  title : String
  content : SectionContent

/-- One complete document state as stored in `AccountPlan.history`: a snapshot
carries every top-level field except the (never-read) nested history. -/
structure Snapshot where
  id : String
  userId : String
  company : String
  goal : String
  title : Option String := none
  createdAt : String
  updatedAt : String
  version : Nat
  sections : List PlanSection

/-- `AccountPlan` from `types`: the live document plus its snapshot history. -/
structure AccountPlan where
  id : String
  userId : String
  company : String
  goal : String
  title : Option String := none
  createdAt : String
  updatedAt : String
  version : Nat
  sections : List PlanSection
  history : List Snapshot := []

/-- The live document viewed as a version candidate (the `plan` element of
`[...history, plan]` in `availableVersions`). -/
def AccountPlan.toSnapshot (p : AccountPlan) : Snapshot :=
  { id := p.id, userId := p.userId, company := p.company, goal := p.goal,
    title := p.title, createdAt := p.createdAt, updatedAt := p.updatedAt,
    version := p.version, sections := p.sections }

/-! ## Mention & attachment resolver (`ChatInterface` lines 525-565, 805-835) -/

/-- ASCII lowering, the model of `String.prototype.toLowerCase` on the ASCII
filenames and queries of the claims. -/
def lowerStr (s : String) : String :=
  (s.toList.map Char.toLower).asString

/-- `p` is a prefix of `l`, as a boolean on character lists. -/
def isPrefixList : List Char → List Char → Bool
  | [], _ => true
  | _ :: _, [] => false
  | a :: as, b :: bs => a == b && isPrefixList as bs

/-- `p` occurs as a contiguous substring of `l` (the model of
`String.prototype.includes`). -/
def isSubstrList : List Char → List Char → Bool
  | p, [] => p.isEmpty
  | p, c :: rest => isPrefixList p (c :: rest) || isSubstrList p rest

/-- Index of the last occurrence of `c` (the model of `lastIndexOf`). -/
def lastIndexOf (cs : List Char) (c : Char) : Option Nat :=
  ((cs.enum.filter (fun p => p.2 == c)).map (fun p => p.1)).getLast?

/-- `handleInputChange`: detect an open mention token — the last `@` strictly
before the caret with no space between it and the caret.  Returns the new
`(mentionQuery, mentionIndex)` pair. -/
def computeMentionState (val : String) (cursor : Nat) : Option String × Int :=
  match lastIndexOf val.toList '@' with
  | none => (none, -1)
  | some lastAt =>
    if cursor > lastAt then
      let query := ((val.toList.drop (lastAt + 1)).take (cursor - (lastAt + 1))).asString
      if query.toList.contains ' ' then (none, -1) else (some query, lastAt)
    else (none, -1)

/-- The union `[...availableFiles, ...attachedFiles]` deduplicated by id
(the IIFE in the suggestion panel). -/
def combineFiles (availableFiles attachedFiles : List AttachedFile) : List AttachedFile :=
  attachedFiles.foldl
    (fun acc f => if acc.any (fun af => af.id == f.id) then acc else acc ++ [f])
    availableFiles

/-- The live candidate filter: case-insensitive substring match of the open
query against each filename. -/
def mentionCandidates (availableFiles attachedFiles : List AttachedFile)
    (q : String) : List AttachedFile :=
  (combineFiles availableFiles attachedFiles).filter
    (fun f => isSubstrList (lowerStr q).toList (lowerStr f.filename).toList)

/-- `handleMentionSelect`: splice the canonical filename over the partial
token, close the suggestion state, and add the file to the pending set if
absent.  Returns `(inputValue, mentionQuery, mentionIndex, attachedFiles)`. -/
def handleMentionSelect (inputValue : String) (mentionQuery : Option String)
    (mentionIndex : Int) (attachedFiles : List AttachedFile) (file : AttachedFile) :
    String × Option String × Int × List AttachedFile :=
  if mentionIndex = -1 then (inputValue, mentionQuery, mentionIndex, attachedFiles)
  else
    let idx := mentionIndex.toNat
    let qlen := (mentionQuery.map String.length).getD 0
    let before := (inputValue.toList.take idx).asString
    let after := (inputValue.toList.drop (idx + qlen + 1)).asString
    let newInput := before ++ "@" ++ file.filename ++ " " ++ after
    let attached :=
      if attachedFiles.any (fun f => f.id == file.id) then attachedFiles
      else attachedFiles ++ [file]
    (newInput, none, -1, attached)

/-! ## Session controller state and send cycle (`ChatInterface`) -/

/-- The `useState`/`useRef` cells of `ChatInterface` that the send cycle and
session-initialization effect read or write (presentation-only cells such as
recording/speech state are outside every claim and omitted). -/
structure ChatState where
  messages : List ChatMessage
  inputValue : String
  isResearching : Bool
  researchProgress : Option ResearchProgress
  researchStartTime : Nat
  proposedPlan : Option (List ResearchTask)
  activeResearchPlan : Option (List ResearchTask)
  currentPlan : Option AccountPlan
  tempConversationId : String
  attachedFiles : List AttachedFile
  availableFiles : List AttachedFile
  latestProgressRef : Option ResearchProgress

/-- The response shape `ChatInterface.handleSendMessage` consumes from
`apiClient.sendChatMessage`. -/
structure SendResponse where
  assistantMessages : Option (List ChatMessage) := none
  updatedPlan : Option AccountPlan := none
  researchStatus : String := "done"
  progress : Option ResearchProgress := none
  researchPlan : Option (List ResearchTask) := none
deriving Inhabited

/-- The request `handleSendMessage` dispatches to the remote service. -/
structure SendRequest where
  userId : String
  planId : Option String
  message : String
  conversationId : Option String
  fileIds : List String
deriving Repr, DecidableEq

/-- The model of `String.prototype.trim` used in the send guard
(`!messageContent.trim()`), defined over character lists so that concrete
guard checks evaluate. -/
def trimStr (s : String) : String :=
  ((s.toList.dropWhile Char.isWhitespace).reverse.dropWhile Char.isWhitespace).reverse.asString

/-- The locally constructed optimistic user message
(`{id: Date.now().toString(), role: "user", content, timestamp}`). -/
def mkUserMessage (msgId content ts : String) : ChatMessage :=
  { id := msgId, role := Role.user, content := content, timestamp := ts }

/-- The synthetic assistant error message appended on dispatch failure. -/
def errorChatMessage (errId errTs : String) : ChatMessage :=
  { id := errId, role := Role.assistant,
    content := "Sorry, I encountered an error processing your request. Please ensure the backend is running.",
    timestamp := errTs }

/-- `new Map(prev.map(m => [m.id, m.researchProgress]))` followed by
`.get(id)`: the `researchProgress` of the last message of `prev` carrying
`id` (later map entries overwrite earlier ones), flattened through the
`undefined` stored for messages without progress. -/
def lookupProgress (prev : List ChatMessage) (id : String) : Option ResearchProgress :=
  match prev.reverse.find? (fun m => m.id == id) with
  | some m => m.researchProgress
  | none => none

/-- One reconciled message: the authoritative copy, except that a locally
attached `researchProgress` under the same id wins over an authoritative
`undefined` (`progressMap.get(msg.id) || msg.researchProgress`). -/
def mergeMessage (prev : List ChatMessage) (m : ChatMessage) : ChatMessage :=
  { m with researchProgress :=
      match lookupProgress prev m.id with
      | some p => some p
      | none => m.researchProgress }

/-- Transcript reconciliation: the authoritative list wholesale, with local
progress annotations re-attached per message id. -/
def reconcile (prev auth : List ChatMessage) : List ChatMessage :=
  auth.map (mergeMessage prev)

/-- The completion marker: replace the final message's `researchProgress`
with the final progress plus elapsed duration, but only when that final
message is an assistant message (`lines 470-483`). -/
def attachCompletion (msgs : List ChatMessage) (fp : ResearchProgress)
    (dur : Nat) : List ChatMessage :=
  match msgs.getLast? with
  | some last =>
      if last.role = Role.assistant then
        msgs.dropLast ++ [{ last with researchProgress := some { fp with duration := some dur } }]
      else msgs
  | none => msgs

/-- The optimistic pre-dispatch update of a non-hidden send (`lines 387-400`):
append the user message, clear input, pending attachments and stale progress,
promote a pending proposal, and record the research start time. -/
def optimisticPhase (st : ChatState) (um : ChatMessage) (sendNow : Nat) : ChatState :=
  { st with
    messages := st.messages ++ [um]
    inputValue := ""
    attachedFiles := []
    researchProgress := none
    latestProgressRef := none
    activeResearchPlan :=
      match st.proposedPlan with
      | some p => some p
      | none => st.activeResearchPlan
    proposedPlan := none
    researchStartTime := sendNow }

/-- Mint an ephemeral conversation id when no plan is bound and none exists
yet (`lines 406-410`); returns the id used for dispatch and the new state. -/
def resolveConversationId (spid : Option String) (st : ChatState)
    (freshCid : String) : String × ChatState :=
  if spid.isNone ∧ st.tempConversationId = "" then
    (freshCid, { st with tempConversationId := freshCid })
  else (st.tempConversationId, st)

/-- Success fan-out of the send cycle (`lines 421-496`), as a pure function of
the state at response time.  `wasResearching` and `startTime` are the
closure-captured render-time values of `isResearching` and
`researchStartTime` (the `setX` calls earlier in the same invocation do not
update the variables the closure reads). -/
def processSuccess (wasResearching : Bool) (startTime now : Nat)
    (st : ChatState) (resp : SendResponse) : ChatState :=
  let msgs1 :=
    match resp.assistantMessages with
    | some auth => if auth = [] then st.messages else reconcile st.messages auth
    | none => st.messages
  let currentPlan2 :=
    match resp.updatedPlan with
    | some p => some p
    | none => st.currentPlan
  let isR2 := decide (resp.researchStatus = "researching")
  let progress2 :=
    match resp.progress with
    | some pr => some pr
    | none => st.researchProgress
  let ref2 :=
    match resp.progress with
    | some pr => some pr
    | none => st.latestProgressRef
  let finalProgress :=
    match resp.progress with
    | some pr => some pr
    | none => st.latestProgressRef
  let msgs2 :=
    if wasResearching ∧ resp.researchStatus ≠ "researching" then
      match finalProgress with
      | some fp => attachCompletion msgs1 fp ((now - startTime) / 1000)
      | none => msgs1
    else msgs1
  let proposed2 :=
    match resp.researchPlan with
    | some rp => some rp
    | none => st.proposedPlan
  { st with
    messages := msgs2
    currentPlan := currentPlan2
    isResearching := isR2
    researchProgress := progress2
    latestProgressRef := ref2
    proposedPlan := proposed2 }

/-- Failure path of the send cycle (`lines 498-511`): reset research status,
discard the progress display, append the synthetic assistant error message. -/
def processFailure (st : ChatState) (errId errTs : String) : ChatState :=
  { st with
    isResearching := false
    researchProgress := none
    messages := st.messages ++ [errorChatMessage errId errTs] }

/-- A full send cycle whose dispatch succeeds: the guard, the optimistic
phase (skipped when hidden), `setIsResearching(true)`, conversation-id
minting, then the success fan-out.  `wasResearching` is the closure's
render-time `isResearching`; the closure's `researchStartTime` is the
pre-call state value `st.researchStartTime`. -/
def handleSendSuccess (user : Option User) (spid : Option String)
    (st : ChatState) (content msgId ts : String) (isHidden wasResearching : Bool)
    (sendNow respNow : Nat) (freshCid : String) (resp : SendResponse) : ChatState :=
  if trimStr content = "" ∨ user.isNone then st
  else
    let um := mkUserMessage msgId content ts
    let st1 := if isHidden then st else optimisticPhase st um sendNow
    let st2 := { st1 with isResearching := true }
    let st3 := (resolveConversationId spid st2 freshCid).2
    processSuccess wasResearching st.researchStartTime respNow st3 resp

/-- A full send cycle whose dispatch fails. -/
def handleSendFailure (user : Option User) (spid : Option String)
    (st : ChatState) (content msgId ts : String) (isHidden : Bool)
    (sendNow : Nat) (freshCid : String) (errId errTs : String) : ChatState :=
  if trimStr content = "" ∨ user.isNone then st
  else
    let um := mkUserMessage msgId content ts
    let st1 := if isHidden then st else optimisticPhase st um sendNow
    let st2 := { st1 with isResearching := true }
    let st3 := (resolveConversationId spid st2 freshCid).2
    processFailure st3 errId errTs

/-- Content of the `id: "welcome"` seed when the bound plan was found in the
local store.  Source literal truncated at its first apostrophe. -/
def welcomeExistingContent (company : String) : String :=
  "Welcome back! Ready to dive deeper into **" ++ company ++
    "**? I\u0027m here to help refine your account plan or research any new developments."

/-- Content of the `id: "welcome"` seed when no plan was found locally. -/
def welcomeFallbackContent : String :=
  "Welcome! I\u0027m your intelligent research assistant. Let\u0027s create a comprehensive account plan together - just tell me which company you\u0027d like to explore."

/-- Content of the distinct `id: "welcome-new"` seed of an unbound session. -/
def welcomeNewPlanContent : String :=
  "Hi there! I\u0027m excited to help you build a winning account plan. Which company has caught your interest? Let\u0027s uncover what makes them tick and create a strategy that gives you an edge."

/-- The single welcome message seeded for a bound plan with empty remote
history (content forks on whether the plan exists in local storage). -/
def welcomeMessage (plan : Option AccountPlan) (ts : String) : ChatMessage :=
  { id := "welcome", role := Role.assistant,
    content :=
      match plan with
      | some p => welcomeExistingContent p.company
      | none => welcomeFallbackContent,
    timestamp := ts }

/-- The single welcome message seeded for an unbound (new-plan) session. -/
def welcomeNewMessage (ts : String) : ChatMessage :=
  { id := "welcome-new", role := Role.assistant,
    content := welcomeNewPlanContent, timestamp := ts }

/-- What `apiClient.getChatHistory` resolves to. -/
structure HistoryData where
  messages : List ChatMessage
  attachedFiles : Option (List AttachedFile) := none

/-- The session-(re)initialization effect (`lines 305-364`), run on every
switch of `selectedPlanId` or `currentUser`: synchronously reset transcript,
plans and research state, then apply the (modelled as already resolved)
history fetch.  `remote = none` models the fetch rejecting; `localPlans`
models `storageService.getPlansForUser`; `freshCid` the minted ephemeral
conversation id; `nowTs` the seeding timestamp. -/
def initOnBindingSwitch (spid : Option String) (user : Option User)
    (localPlans : List AccountPlan) (remote : Option HistoryData)
    (freshCid nowTs : String) (st : ChatState) : ChatState :=
  let st0 := { st with
    messages := ([] : List ChatMessage)
    isResearching := false
    researchProgress := none
    proposedPlan := none
    activeResearchPlan := none
    latestProgressRef := none }
  match spid, user with
  | some pid, some _ =>
    let plan := localPlans.find? (fun p => p.id == pid)
    let st1 := { st0 with currentPlan := plan, tempConversationId := "" }
    match remote with
    | some data =>
      if data.messages = [] then
        { st1 with messages := [welcomeMessage plan nowTs],
                   availableFiles := data.attachedFiles.getD [] }
      else
        { st1 with messages := data.messages,
                   availableFiles := data.attachedFiles.getD [] }
    | none =>
      { st1 with messages := [welcomeMessage plan nowTs], availableFiles := [] }
  | _, _ =>
    { st0 with
      currentPlan := none
      availableFiles := []
      tempConversationId := freshCid
      messages := [welcomeNewMessage nowTs] }

/-! ## The scheduled auto-continuation (`lines 490-492`)

`setTimeout(() => handleSendMessage("[CONTINUE_RESEARCH]", true), 100)`
captures the rendering closure's `selectedPlanId`, `currentUser`,
`tempConversationId` and `attachedFiles`; when the timer fires, the handler
body runs against those captured values while its state setters apply to the
component's then-current state.  The handler body contains no comparison of
the captured binding with the component's active binding. -/

/-- The closure-captured values a scheduled continuation carries. -/
structure CapturedSession where
  planId : Option String
  user : Option User
  tempConversationId : String
  attachedFiles : List AttachedFile

/-- Firing a pending continuation: the guard and dispatch construction of
`handleSendMessage("[CONTINUE_RESEARCH]", true)` compiled over the captured
closure values.  `activePlanId` is the component's current binding at fire
time; the source handler never reads it, so it cannot influence the result.
Returns the dispatched request (`none` when the guard returns early) and the
component state after the synchronous pre-dispatch mutations. -/
def fireContinuation (cap : CapturedSession) (activePlanId : Option String)
    (current : ChatState) (freshCid : String) : Option SendRequest × ChatState :=
  if trimStr "[CONTINUE_RESEARCH]" = "" ∨ cap.user.isNone then (none, current)
  else
    match cap.user with
    | none => (none, current)
    | some u =>
      let st2 := { current with isResearching := true }
      let (cid, st3) :=
        if cap.planId.isNone ∧ cap.tempConversationId = "" then
          (freshCid, { st2 with tempConversationId := freshCid })
        else (cap.tempConversationId, st2)
      (some { userId := u.id
              planId := cap.planId
              message := "[CONTINUE_RESEARCH]"
              conversationId := if cap.planId.isSome then none else some cid
              fileIds := cap.attachedFiles.map (fun f => f.id) },
       st3)

/-! ## Artifact version store (`ArtifactCanvas`) -/

/-- One row of the version listing (`availableVersions`). -/
structure VersionEntry where
  actualVersion : Nat
  displayVersion : Nat
  updatedAt : String
  isCurrent : Bool
deriving Repr, DecidableEq

/-- One `versionMap.set(p.version, p)` step of the dedupe: a JavaScript `Map`
keeps the first-insertion position of an existing key and overwrites its
value, and appends genuinely new keys. -/
def upsertByVersion (acc : List Snapshot) (p : Snapshot) : List Snapshot :=
  if acc.any (fun q => q.version == p.version) then
    acc.map (fun q => if q.version = p.version then p else q)
  else acc ++ [p]

/-- Deduplicate the candidates by version number, later entries winning. -/
def dedupeByVersion (cs : List Snapshot) : List Snapshot :=
  cs.foldl upsertByVersion []

/-- Comparison used by `unique.sort((a, b) => a.version - b.version)`. -/
def snapLE : Snapshot → Snapshot → Prop := fun a b => a.version ≤ b.version

instance : DecidableRel snapLE := fun a b =>
  inferInstanceAs (Decidable (a.version ≤ b.version))

instance : IsTotal Snapshot snapLE :=
  ⟨fun a b => Nat.le_total a.version b.version⟩

instance : IsTrans Snapshot snapLE :=
  ⟨fun _ _ _ hab hbc => Nat.le_trans hab hbc⟩

/-- `availableVersions`: candidates are `[...history, plan]`; deduplicate by
version number (later wins, so the live document overrides a history entry of
the same version); sort ascending by version; emit display rows marking the
entry whose version equals the live version as current. -/
def availableVersions (plan : AccountPlan) : List VersionEntry :=
  let candidates := plan.history ++ [plan.toSnapshot]
  let unique := dedupeByVersion candidates
  let sorted := List.insertionSort snapLE unique
  sorted.map (fun p =>
    { actualVersion := p.version
      displayVersion := p.version
      updatedAt := p.updatedAt
      isCurrent := decide (p.version = plan.version) })

/-- What `displayPlan` can hold: the live document, or a history snapshot
(the source casts the snapshot to the document type for display). -/
inductive DisplayDoc where
  | live : AccountPlan → DisplayDoc
  | snap : Snapshot → DisplayDoc

/-- The `useState` cells of `ArtifactCanvas` the claims touch
(`historyIndex = -1` is the *current* sentinel). -/
structure CanvasState where
  plan : Option AccountPlan
  displayPlan : Option DisplayDoc
  isEditing : Bool
  editState : Option AccountPlan
  historyIndex : Int
  showVersionPanel : Bool

/-- The history-navigation effect (`lines 90-118`): recompute `displayPlan`
from `plan` and `historyIndex`.  The sentinel or an index at/above the live
version shows the live document; otherwise the first history snapshot with
the matching version, falling back to the live document; with an empty
history the branch assigns nothing. -/
def navigationEffect (st : CanvasState) : CanvasState :=
  match st.plan with
  | none => st
  | some p =>
    if st.historyIndex = -1 ∨ (p.version : Int) ≤ st.historyIndex then
      { st with displayPlan := some (DisplayDoc.live p) }
    else
      match p.history with
      | [] => st
      | _ :: _ =>
        match p.history.find? (fun h => (h.version : Int) == st.historyIndex) with
        | some s => { st with displayPlan := some (DisplayDoc.snap s) }
        | none => { st with displayPlan := some (DisplayDoc.live p) }

/-- Clicking a row of the version panel (`lines 381-385`): normalize a click
on the live version to the sentinel, close the panel, and let the navigation
effect recompute the displayed document. -/
def selectVersionClick (st : CanvasState) (v : Nat) : CanvasState :=
  match st.plan with
  | none => st
  | some p =>
    navigationEffect
      { st with
        historyIndex := if v = p.version then -1 else (v : Int)
        showVersionPanel := false }

/-- Selecting *current* directly: the sentinel pointer with the panel closed,
then the navigation effect. -/
def selectCurrent (st : CanvasState) : CanvasState :=
  navigationEffect { st with historyIndex := -1, showVersionPanel := false }

/-- Outcome of `handleSaveEdit`. -/
structure SaveResult where
  state : CanvasState
  errorSurfaced : Bool
  savedToLocalStore : Bool

/-- `handleSaveEdit` (`lines 139-157`): guard on an edit buffer and a live
document; optimistically replace both the live document and the displayed
view with the edit buffer and exit edit mode; then persist remotely
(`persistOk` is whether `apiClient.updatePlan` resolves).  On success the
buffer is also written to the local store; on failure an alert is surfaced
and nothing is rolled back. -/
def handleSaveEdit (st : CanvasState) (persistOk : Bool) : SaveResult :=
  match st.editState, st.plan with
  | some e, some _ =>
    let st1 := { st with
      plan := some e
      displayPlan := some (DisplayDoc.live e)
      isEditing := false }
    { state := st1, errorSurfaced := !persistOk, savedToLocalStore := persistOk }
  | _, _ => { state := st, errorSurfaced := false, savedToLocalStore := false }

/-- `newSections[index] = { ...newSections[index], content: newContent }` on a
copy of the sections array (call sites always pass an in-range index). -/
def setSectionAt : List PlanSection → Nat → SectionContent → List PlanSection
  | [], _, _ => []
  | s :: rest, 0, c => { s with content := c } :: rest
  | s :: rest, n + 1, c => s :: setSectionAt rest n c

/-- `updateSectionContent` (`lines 159-164`), pure core over the edit buffer:
replace one section's content by index, keeping everything else. -/
def updateSectionContent (e : AccountPlan) (index : Nat) (c : SectionContent) :
    AccountPlan :=
  { e with sections := setSectionAt e.sections index c }

/-- The stateful wrapper of `updateSectionContent`: a no-op without an edit
buffer, otherwise only the edit buffer changes. -/
def updateSectionContentState (st : CanvasState) (index : Nat)
    (c : SectionContent) : CanvasState :=
  match st.editState with
  | none => st
  | some e => { st with editState := some (updateSectionContent e index c) }

/-! ## Concrete instances used by witnesses and counterexamples -/

/-- A signed-in user. -/
def demoUser : User := { id := "u1" }

/-- History snapshot at version 1. -/
def snap1 : Snapshot :=
  { id := "p1", userId := "u1", company := "Acme", goal := "g",
    createdAt := "c0", updatedAt := "t1", version := 1, sections := [] }

/-- History snapshot at version 3. -/
def snap3 : Snapshot :=
  { snap1 with updatedAt := "t3", version := 3 }

/-- History snapshot at version 5 (stale copy of the live version). -/
def snap5 : Snapshot :=
  { snap1 with updatedAt := "t5stale", version := 5 }

/-- A live document at version 5 whose history holds snapshots 1, 3 and 5. -/
def livePlan5 : AccountPlan :=
  { id := "p1", userId := "u1", company := "Acme", goal := "g",
    createdAt := "c0", updatedAt := "t5", version := 5, sections := [],
    history := [snap1, snap3, snap5] }

/-- Two sample sections for edit-buffer instances. -/
def sectionsAB : List PlanSection :=
  [{ title := "Overview", content := SectionContent.text "old overview" },
   { title := "Strategy", content := SectionContent.list [SectionContent.text "step"] }]

/-- An edit buffer differing from `livePlan5` in its sections. -/
def demoEditBuffer : AccountPlan :=
  { livePlan5 with sections := sectionsAB }

/-- A canvas state viewing `livePlan5` at historical version 3 with the
version panel open. -/
def demoCanvas : CanvasState :=
  { plan := some livePlan5, displayPlan := some (DisplayDoc.snap snap3),
    isEditing := false, editState := none, historyIndex := 3,
    showVersionPanel := true }

/-- A canvas state editing `livePlan5` with buffer `demoEditBuffer`. -/
def demoEditingCanvas : CanvasState :=
  { plan := some livePlan5, displayPlan := some (DisplayDoc.live livePlan5),
    isEditing := true, editState := some demoEditBuffer, historyIndex := -1,
    showVersionPanel := false }

/-- An idle chat state with one assistant message on screen. -/
def assistantA1 : ChatMessage :=
  { id := "a1", role := Role.assistant, content := "Findings so far.", timestamp := "t1" }

/-- An idle, empty chat state bound to a fresh session. -/
def demoChatState : ChatState :=
  { messages := [], inputValue := "", isResearching := false,
    researchProgress := none, researchStartTime := 0, proposedPlan := none,
    activeResearchPlan := none, currentPlan := none, tempConversationId := "conv-0",
    attachedFiles := [], availableFiles := [], latestProgressRef := none }

/-- Closure values of a continuation scheduled while plan `plan-A` was bound. -/
def demoCaptured : CapturedSession :=
  { planId := some "plan-A", user := some demoUser,
    tempConversationId := "", attachedFiles := [] }

/-- The request the stale continuation dispatches. -/
def demoContinuationRequest : SendRequest :=
  { userId := "u1", planId := some "plan-A", message := "[CONTINUE_RESEARCH]",
    conversationId := none, fileIds := [] }

/-- A finished-research progress record carrying duration 42. -/
def progress42 : ResearchProgress :=
  { current_step := 3, total_steps := 3, label := "done", visual := "",
    tasks := none, duration := some 42 }

/-- The local message `{id: "m1"}` carrying `progress42`. -/
def localM1 : ChatMessage :=
  { id := "m1", role := Role.assistant, content := "local text",
    timestamp := "t0", researchProgress := some progress42 }

/-- The authoritative `{id: "m1"}` without progress. -/
def authM1 : ChatMessage :=
  { id := "m1", role := Role.assistant, content := "auth text", timestamp := "t2" }

/-- A successful response carrying only the authoritative copy of `m1`. -/
def demoAuthResponse : SendResponse :=
  { assistantMessages := some [authM1] }

/-- An in-flight progress record without duration. -/
def progressLive : ResearchProgress :=
  { current_step := 2, total_steps := 2, label := "searching", visual := "" }

/-- Chat state of a continuation cycle: transcript ends with an assistant
message, research is running. -/
def researchingChatState : ChatState :=
  { messages := [assistantA1], inputValue := "", isResearching := true,
    researchProgress := some progressLive, researchStartTime := 5000,
    proposedPlan := none, activeResearchPlan := none, currentPlan := none,
    tempConversationId := "conv-1", attachedFiles := [], availableFiles := [],
    latestProgressRef := some progressLive }

/-- A terminal response with an empty authoritative list but final progress. -/
def emptyDoneResponse : SendResponse :=
  { assistantMessages := some [], researchStatus := "done",
    progress := some progressLive }

/-! ## Theorems -/

/-- C9: with input `see @rep`, caret at the end, and available files
`report.pdf` (id 1) and `notes.txt` (id 2): the open token is `rep` at
index 4, the candidate set is exactly `[report.pdf]`, and selecting it
yields input `see @report.pdf `, pending set `[report.pdf]`, and a closed
suggestion state. -/
theorem mention_resolution_concrete :
    computeMentionState "see @rep" 8 = (some "rep", 4)
    ∧ mentionCandidates [⟨"1", "report.pdf"⟩, ⟨"2", "notes.txt"⟩] [] "rep"
        = [⟨"1", "report.pdf"⟩]
    ∧ handleMentionSelect "see @rep" (some "rep") 4 [] ⟨"1", "report.pdf"⟩
        = ("see @report.pdf ", none, -1, [⟨"1", "report.pdf"⟩]) := by
  refine ⟨?_, ?_, ?_⟩ <;> decide

/-- C4: clicking the version whose number equals the live version produces
exactly the state produced by selecting *current*: the stored pointer
normalizes to the `-1` sentinel and the displayed document is the live one. -/
theorem select_live_version_normalizes (st : CanvasState) (p : AccountPlan)
    (h : st.plan = some p) :
    selectVersionClick st p.version = selectCurrent st
    ∧ (selectVersionClick st p.version).historyIndex = -1
    ∧ (selectVersionClick st p.version).displayPlan = some (DisplayDoc.live p) := by
  unfold selectVersionClick selectCurrent navigationEffect
  rw [h]
  simp

/-- Witness for C4 at `demoCanvas` (pointer at historical version 3). -/
theorem select_live_version_normalizes_witness :
    demoCanvas.plan = some livePlan5
    ∧ (selectVersionClick demoCanvas livePlan5.version = selectCurrent demoCanvas
        ∧ (selectVersionClick demoCanvas livePlan5.version).historyIndex = -1
        ∧ (selectVersionClick demoCanvas livePlan5.version).displayPlan
            = some (DisplayDoc.live livePlan5)) :=
  ⟨rfl, select_live_version_normalizes demoCanvas livePlan5 rfl⟩

/-- C5: committing an edit buffer optimistically replaces the live document
and the displayed view with the buffer and exits edit mode; a persistence
failure surfaces an error but rolls nothing back (the resulting state does
not depend on the persistence outcome). -/
theorem commit_optimistic_no_rollback (st : CanvasState) (e p : AccountPlan)
    (he : st.editState = some e) (hp : st.plan = some p) (ok : Bool) :
    (handleSaveEdit st ok).state.plan = some e
    ∧ (handleSaveEdit st ok).state.displayPlan = some (DisplayDoc.live e)
    ∧ (handleSaveEdit st ok).state.isEditing = false
    ∧ (ok = false → (handleSaveEdit st ok).errorSurfaced = true)
    ∧ (handleSaveEdit st false).state = (handleSaveEdit st true).state := by
  unfold handleSaveEdit
  rw [he, hp]
  cases ok <;> simp

/-- Witness for C5 at `demoEditingCanvas` with a failing persistence call. -/
theorem commit_optimistic_no_rollback_witness :
    demoEditingCanvas.editState = some demoEditBuffer
    ∧ demoEditingCanvas.plan = some livePlan5
    ∧ (handleSaveEdit demoEditingCanvas false).state.plan = some demoEditBuffer
    ∧ (handleSaveEdit demoEditingCanvas false).errorSurfaced = true :=
  ⟨rfl, rfl,
    (commit_optimistic_no_rollback demoEditingCanvas demoEditBuffer livePlan5 rfl rfl false).1,
    (commit_optimistic_no_rollback demoEditingCanvas demoEditBuffer livePlan5 rfl rfl false).2.2.2.1 rfl⟩

/-- C2: the code has no staleness guard.  Firing a pending continuation is
entirely independent of the component's active binding at fire time, and in
particular a continuation scheduled for `plan-A` that fires after the
binding switched to `plan-B` still dispatches a `[CONTINUE_RESEARCH]`
request for `plan-A` and mutates the new session's state
(`isResearching := true`), instead of being a no-op. -/
theorem continuation_fires_ignoring_binding :
    (∀ (cap : CapturedSession) (a b : Option String) (st : ChatState) (f : String),
        fireContinuation cap a st f = fireContinuation cap b st f)
    ∧ (fireContinuation demoCaptured (some "plan-B") demoChatState "cid").1
        = some demoContinuationRequest
    ∧ (fireContinuation demoCaptured (some "plan-B") demoChatState "cid").2.isResearching
        = true
    ∧ demoChatState.isResearching = false := by
  refine ⟨fun cap a b st f => rfl, ?_, ?_, rfl⟩ <;> decide

/-- `setSectionAt` keeps the length of the sections array. -/
theorem setSectionAt_length : ∀ (l : List PlanSection) (i : Nat) (c : SectionContent),
    (setSectionAt l i c).length = l.length
  | [], _, _ => rfl
  | _ :: rest, 0, _ => by simp [setSectionAt]
  | _ :: rest, n + 1, c => by simp [setSectionAt, setSectionAt_length rest n c]

/-- `setSectionAt` leaves every other position untouched. -/
theorem setSectionAt_get_ne : ∀ (l : List PlanSection) (i j : Nat) (c : SectionContent),
    j ≠ i → (setSectionAt l i c)[j]? = l[j]?
  | [], _, _, _, _ => rfl
  | s :: rest, 0, 0, c, h => absurd rfl h
  | s :: rest, 0, j + 1, c, _ => by simp [setSectionAt]
  | s :: rest, n + 1, 0, c, _ => by simp [setSectionAt]
  | s :: rest, n + 1, j + 1, c, h => by
    simp only [setSectionAt, List.getElem?_cons_succ]
    exact setSectionAt_get_ne rest n j c (fun hji => h (congrArg Nat.succ hji))

/-- At the written position, only the content changes. -/
theorem setSectionAt_get_eq : ∀ (l : List PlanSection) (i : Nat) (c : SectionContent),
    (setSectionAt l i c)[i]? = (l[i]?).map (fun s => { s with content := c })
  | [], _, _ => rfl
  | s :: rest, 0, c => by simp [setSectionAt]
  | s :: rest, n + 1, c => by
    simp only [setSectionAt, List.getElem?_cons_succ]
    exact setSectionAt_get_eq rest n c

/-- C8: replacing one section's content by index perturbs neither the other
sections (same entry at every other position, same length, same title at the
written position) nor any top-level field of the document; the stateful
wrapper moreover changes only the edit buffer. -/
theorem update_section_content_frame (e : AccountPlan) (i : Nat) (c : SectionContent)
    (hi : i < e.sections.length) :
    (∀ j, j ≠ i → (updateSectionContent e i c).sections[j]? = e.sections[j]?)
    ∧ ((updateSectionContent e i c).sections[i]?).map PlanSection.title
        = (e.sections[i]?).map PlanSection.title
    ∧ (updateSectionContent e i c).sections.length = e.sections.length
    ∧ (updateSectionContent e i c).id = e.id
    ∧ (updateSectionContent e i c).userId = e.userId
    ∧ (updateSectionContent e i c).company = e.company
    ∧ (updateSectionContent e i c).goal = e.goal
    ∧ (updateSectionContent e i c).title = e.title
    ∧ (updateSectionContent e i c).createdAt = e.createdAt
    ∧ (updateSectionContent e i c).updatedAt = e.updatedAt
    ∧ (updateSectionContent e i c).version = e.version
    ∧ (updateSectionContent e i c).history = e.history
    ∧ (∀ st : CanvasState, st.editState = some e →
        updateSectionContentState st i c
          = { st with editState := some (updateSectionContent e i c) }) := by
  refine ⟨fun j hj => setSectionAt_get_ne e.sections i j c hj, ?_,
    setSectionAt_length e.sections i c, rfl, rfl, rfl, rfl, rfl, rfl, rfl, rfl, rfl,
    fun st hst => ?_⟩
  · rw [show (updateSectionContent e i c).sections = setSectionAt e.sections i c from rfl,
      setSectionAt_get_eq]
    cases e.sections[i]? <;> rfl
  · unfold updateSectionContentState
    rw [hst]

/-- Witness for C8: rewriting section 1 of `demoEditBuffer` leaves position 0
and the document metadata unchanged. -/
theorem update_section_content_frame_witness :
    1 < demoEditBuffer.sections.length
    ∧ (0 : Nat) ≠ 1
    ∧ (updateSectionContent demoEditBuffer 1 (SectionContent.text "new")).sections[0]?
        = demoEditBuffer.sections[0]?
    ∧ (updateSectionContent demoEditBuffer 1 (SectionContent.text "new")).version
        = demoEditBuffer.version :=
  ⟨by decide, by decide,
    (update_section_content_frame demoEditBuffer 1 (SectionContent.text "new")
      (by decide)).1 0 (by decide),
    (update_section_content_frame demoEditBuffer 1 (SectionContent.text "new")
      (by decide)).2.2.2.2.2.2.2.2.2.2.1⟩

/-- Conversation-id minting leaves the transcript untouched. -/
theorem resolveConversationId_messages (spid : Option String) (s : ChatState)
    (freshCid : String) :
    (resolveConversationId spid s freshCid).2.messages = s.messages := by
  unfold resolveConversationId; split <;> simp

/-- Conversation-id minting leaves the research flag untouched. -/
theorem resolveConversationId_isResearching (spid : Option String) (s : ChatState)
    (freshCid : String) :
    (resolveConversationId spid s freshCid).2.isResearching = s.isResearching := by
  unfold resolveConversationId; split <;> simp

/-- Conversation-id minting leaves the progress display untouched. -/
theorem resolveConversationId_researchProgress (spid : Option String) (s : ChatState)
    (freshCid : String) :
    (resolveConversationId spid s freshCid).2.researchProgress = s.researchProgress := by
  unfold resolveConversationId; split <;> simp

/-- C6: a failed dispatch of a visible send resets research status to idle,
discards the progress display, and appends the synthetic assistant error
message, while the optimistically appended user message stays in the
transcript. -/
theorem failure_path_preserves_user_message
    (u : User) (spid : Option String) (st : ChatState)
    (content msgId ts : String) (sendNow : Nat) (freshCid errId errTs : String)
    (hc : trimStr content ≠ "") :
    (handleSendFailure (some u) spid st content msgId ts false sendNow freshCid errId errTs).isResearching = false
    ∧ (handleSendFailure (some u) spid st content msgId ts false sendNow freshCid errId errTs).researchProgress = none
    ∧ (handleSendFailure (some u) spid st content msgId ts false sendNow freshCid errId errTs).messages
        = st.messages ++ [mkUserMessage msgId content ts, errorChatMessage errId errTs]
    ∧ mkUserMessage msgId content ts
        ∈ (handleSendFailure (some u) spid st content msgId ts false sendNow freshCid errId errTs).messages := by
  unfold handleSendFailure
  rw [if_neg (by simp [hc])]
  split
  · simp_all
  · simp [processFailure, resolveConversationId_messages,
      resolveConversationId_isResearching, resolveConversationId_researchProgress,
      optimisticPhase]

/-- C7: switching the session binding with an empty (or failed) remote
history yields exactly one seeded welcome message, and which variant is
seeded — `welcome` (existing-session seed) versus `welcome-new` (new-plan
seed) — is determined solely by whether a plan id is bound; an unbound
switch moreover mints the fresh ephemeral conversation id and binds no plan. -/
theorem binding_switch_seeds_single_welcome
    (spid : Option String) (u : User) (localPlans : List AccountPlan)
    (remote : Option HistoryData) (freshCid nowTs : String) (st : ChatState)
    (hempty : ∀ d, remote = some d → d.messages = []) :
    (initOnBindingSwitch spid (some u) localPlans remote freshCid nowTs st).messages.map ChatMessage.id
      = [if spid.isSome then "welcome" else "welcome-new"]
    ∧ (initOnBindingSwitch spid (some u) localPlans remote freshCid nowTs st).messages.length = 1
    ∧ (spid = none →
        (initOnBindingSwitch spid (some u) localPlans remote freshCid nowTs st).tempConversationId = freshCid
        ∧ (initOnBindingSwitch spid (some u) localPlans remote freshCid nowTs st).currentPlan = none) := by
  cases spid with
  | none =>
    cases remote <;>
      simp [initOnBindingSwitch, welcomeNewMessage]
  | some pid =>
    cases remote with
    | none => simp [initOnBindingSwitch, welcomeMessage]
    | some d =>
      have hd := hempty d rfl
      simp [initOnBindingSwitch, welcomeMessage, hd]

/-- Witness for C7: a bound switch to `p1` whose history fetch returns no
messages seeds exactly the `welcome` variant. -/
theorem binding_switch_seeds_single_welcome_witness :
    (∀ d : HistoryData, (some { messages := [] } : Option HistoryData) = some d → d.messages = [])
    ∧ (initOnBindingSwitch (some "p1") (some demoUser) [livePlan5]
        (some { messages := [] }) "fresh-cid" "ts" demoChatState).messages.map ChatMessage.id
        = [if (some "p1" : Option String).isSome then "welcome" else "welcome-new"] :=
  ⟨fun d hd => by cases hd; rfl,
    (binding_switch_seeds_single_welcome (some "p1") demoUser [livePlan5]
      (some { messages := [] }) "fresh-cid" "ts" demoChatState
      (fun d hd => by cases hd; rfl)).1⟩

/-- C1: transcript reconciliation replaces the visible transcript with the
authoritative list (same ids and contents, in order), and every replacement
message whose id matches a previous local message reuses that local
message's `researchProgress` whenever the authoritative copy lacks it; a
visible send whose closure saw an idle session ends with exactly the
reconciled transcript; and the `m1`/duration-42 instance merges as the spec
demands. -/
theorem reconciliation_preserves_local_progress :
    (∀ (prev : List ChatMessage) (m : ChatMessage) (p : ResearchProgress),
        m.researchProgress = none → lookupProgress prev m.id = some p →
        mergeMessage prev m = { m with researchProgress := some p })
    ∧ (∀ prev auth : List ChatMessage,
        (reconcile prev auth).map ChatMessage.id = auth.map ChatMessage.id
        ∧ (reconcile prev auth).map ChatMessage.content = auth.map ChatMessage.content)
    ∧ (∀ (u : User) (spid : Option String) (st : ChatState)
        (content msgId ts : String) (sendNow respNow : Nat) (freshCid : String)
        (resp : SendResponse) (auth : List ChatMessage),
        trimStr content ≠ "" → resp.assistantMessages = some auth → auth ≠ [] →
        (handleSendSuccess (some u) spid st content msgId ts false false
            sendNow respNow freshCid resp).messages
          = reconcile (st.messages ++ [mkUserMessage msgId content ts]) auth)
    ∧ reconcile [localM1] [authM1] = [{ authM1 with researchProgress := some progress42 }] := by
  refine ⟨?_, ?_, ?_, by decide⟩
  · intro prev m p hm hp
    unfold mergeMessage
    rw [hp]
  · intro prev auth
    constructor <;>
      simp [reconcile, mergeMessage, List.map_map, Function.comp]
  · intro u spid st content msgId ts sendNow respNow freshCid resp auth hc hresp hne
    unfold handleSendSuccess
    rw [if_neg (by simp [hc])]
    unfold processSuccess
    rw [hresp]
    simp [hne, resolveConversationId_messages, optimisticPhase]

/-- Witness for C1: the merge rule and the full send cycle evaluated on the
`m1` instance. -/
theorem reconciliation_preserves_local_progress_witness :
    (authM1.researchProgress = none
      ∧ lookupProgress [localM1] authM1.id = some progress42
      ∧ mergeMessage [localM1] authM1 = { authM1 with researchProgress := some progress42 })
    ∧ (handleSendSuccess (some demoUser) (some "p1")
        { demoChatState with messages := [localM1] } "go deeper" "77" "t7" false false
        1000 2000 "cid" demoAuthResponse).messages
        = reconcile ([localM1] ++ [mkUserMessage "77" "go deeper" "t7"]) [authM1] :=
  ⟨⟨rfl, rfl,
    reconciliation_preserves_local_progress.1 [localM1] authM1 progress42 rfl rfl⟩,
    reconciliation_preserves_local_progress.2.2.1 demoUser (some "p1")
      { demoChatState with messages := [localM1] } "go deeper" "77" "t7"
      1000 2000 "cid" demoAuthResponse [authM1] (by decide) rfl (by decide)⟩

/-- Attaching the completion marker to a transcript ending in `m` rewrites
exactly that last message, and only when it is an assistant message. -/
theorem attachCompletion_concat (init : List ChatMessage) (m : ChatMessage)
    (fp : ResearchProgress) (dur : Nat) :
    attachCompletion (init ++ [m]) fp dur =
      if m.role = Role.assistant
      then init ++ [{ m with researchProgress := some { fp with duration := some dur } }]
      else init ++ [m] := by
  unfold attachCompletion
  rw [List.getLast?_concat, List.dropLast_concat]

/-- Attaching the completion marker either changes nothing or rewrites only
the final assistant message's progress field. -/
theorem attachCompletion_cases (msgs : List ChatMessage) (fp : ResearchProgress)
    (dur : Nat) :
    attachCompletion msgs fp dur = msgs
    ∨ ∃ init last, msgs = init ++ [last] ∧ last.role = Role.assistant
        ∧ attachCompletion msgs fp dur
          = init ++ [{ last with researchProgress := some { fp with duration := some dur } }] := by
  rcases List.eq_nil_or_concat msgs with h | ⟨init, last, h⟩
  · left; rw [h]; rfl
  · rw [List.concat_eq_append] at h
    subst h
    by_cases hr : last.role = Role.assistant
    · right
      exact ⟨init, last, rfl, hr, by rw [attachCompletion_concat, if_pos hr]⟩
    · left
      rw [attachCompletion_concat, if_neg hr]

/-- With an absent or empty authoritative list, the success fan-out leaves
the transcript as it was, except possibly for the completion marker. -/
theorem processSuccess_messages_of_empty (wasR : Bool) (t0 now : Nat)
    (s : ChatState) (resp : SendResponse)
    (hempty : resp.assistantMessages = none ∨ resp.assistantMessages = some []) :
    (processSuccess wasR t0 now s resp).messages = s.messages
    ∨ ∃ fp, (processSuccess wasR t0 now s resp).messages
        = attachCompletion s.messages fp ((now - t0) / 1000) := by
  unfold processSuccess
  rcases hempty with h | h <;> rw [h] <;> simp only [] <;>
    · split
      · split
        · exact Or.inr ⟨_, rfl⟩
        · exact Or.inl rfl
      · exact Or.inl rfl

/-- If the transcript at response time ends in a non-assistant message (in
particular, in the optimistic user message), an absent/empty authoritative
list leaves the transcript exactly unchanged. -/
theorem processSuccess_messages_of_empty_user_last (wasR : Bool) (t0 now : Nat)
    (s : ChatState) (resp : SendResponse)
    (hempty : resp.assistantMessages = none ∨ resp.assistantMessages = some [])
    (init : List ChatMessage) (last : ChatMessage)
    (hs : s.messages = init ++ [last]) (hr : last.role ≠ Role.assistant) :
    (processSuccess wasR t0 now s resp).messages = s.messages := by
  rcases processSuccess_messages_of_empty wasR t0 now s resp hempty with h | ⟨fp, h⟩
  · exact h
  · rw [h, hs, attachCompletion_concat, if_neg hr]

/-- C10 (amended): when the authoritative message list of a successful
response is absent or empty, no replacement occurs — no message is added,
removed or reordered; for a visible send the transcript (including the
optimistic user message) is exactly unchanged, and in general at most the
final assistant message's `researchProgress` field is rewritten by the
research-completion marker. -/
theorem empty_authoritative_transcript_frame
    (u : User) (spid : Option String) (st : ChatState)
    (content msgId ts : String) (isHidden wasResearching : Bool)
    (sendNow respNow : Nat) (freshCid : String) (resp : SendResponse)
    (hc : trimStr content ≠ "")
    (hempty : resp.assistantMessages = none ∨ resp.assistantMessages = some []) :
    (isHidden = false →
      (handleSendSuccess (some u) spid st content msgId ts isHidden wasResearching
          sendNow respNow freshCid resp).messages
        = st.messages ++ [mkUserMessage msgId content ts])
    ∧ ((handleSendSuccess (some u) spid st content msgId ts isHidden wasResearching
          sendNow respNow freshCid resp).messages
        = (if isHidden then st.messages else st.messages ++ [mkUserMessage msgId content ts])
      ∨ ∃ init last fp,
          (if isHidden then st.messages else st.messages ++ [mkUserMessage msgId content ts])
            = init ++ [last]
          ∧ last.role = Role.assistant
          ∧ (handleSendSuccess (some u) spid st content msgId ts isHidden wasResearching
              sendNow respNow freshCid resp).messages
            = init ++ [{ last with researchProgress := some fp }]) := by
  unfold handleSendSuccess
  rw [if_neg (by simp [hc])]
  simp only []
  have hmsg3 :
      ((resolveConversationId spid
        { (if isHidden then st
            else optimisticPhase st (mkUserMessage msgId content ts) sendNow) with
          isResearching := true } freshCid).2).messages
      = (if isHidden then st.messages
          else st.messages ++ [mkUserMessage msgId content ts]) := by
    rw [resolveConversationId_messages]
    cases isHidden <;> simp [optimisticPhase]
  constructor
  · intro hH
    subst hH
    rw [processSuccess_messages_of_empty_user_last wasResearching st.researchStartTime
      respNow _ resp hempty st.messages (mkUserMessage msgId content ts)
      (by simpa using hmsg3) (by simp [mkUserMessage])]
    simpa using hmsg3
  · rcases processSuccess_messages_of_empty wasResearching st.researchStartTime
      respNow _ resp hempty with h | ⟨fp, h⟩
    · left
      rw [h, hmsg3]
    · rcases attachCompletion_cases ((resolveConversationId spid
        { (if isHidden then st
            else optimisticPhase st (mkUserMessage msgId content ts) sendNow) with
          isResearching := true } freshCid).2).messages fp ((respNow - st.researchStartTime) / 1000)
        with h2 | ⟨init, last, he, hr, h2⟩
      · left
        rw [h, h2, hmsg3]
      · right
        exact ⟨init, last, _, by rw [← hmsg3]; exact he, hr, by rw [h, h2]⟩

/-- C10 counterexample: a hidden continuation response with an empty
authoritative list that concludes research (status `done`, progress
available) does change the visible transcript — the final assistant message
acquires the completion progress. -/
theorem empty_authoritative_counterexample :
    (handleSendSuccess (some demoUser) (some "plan-A") researchingChatState
        "[CONTINUE_RESEARCH]" "99" "t9" true true 64000 65000 "cid"
        emptyDoneResponse).messages
      ≠ researchingChatState.messages := by decide

/-- Witness for C10 (amended) on a visible send with an empty authoritative
list: the transcript is exactly the optimistic one. -/
theorem empty_authoritative_transcript_frame_witness :
    trimStr "more detail" ≠ ""
    ∧ ((some [] : Option (List ChatMessage)) = none
        ∨ (some [] : Option (List ChatMessage)) = some [])
    ∧ (handleSendSuccess (some demoUser) (some "p1") researchingChatState
        "more detail" "88" "t8" false false 1000 2000 "cid"
        { assistantMessages := some [] }).messages
      = researchingChatState.messages ++ [mkUserMessage "88" "more detail" "t8"] :=
  ⟨by decide, Or.inr rfl,
    (empty_authoritative_transcript_frame demoUser (some "p1") researchingChatState
      "more detail" "88" "t8" false false 1000 2000 "cid"
      { assistantMessages := some [] } (by decide) (Or.inr rfl)).1 rfl⟩

/-- Replacing the value stored under an existing version key keeps the
version sequence of the map unchanged. -/
theorem upsertByVersion_map_version_of_any (l : List Snapshot) (p : Snapshot)
    (h : (l.any (fun q => q.version == p.version)) = true) :
    (upsertByVersion l p).map Snapshot.version = l.map Snapshot.version := by
  unfold upsertByVersion
  rw [if_pos h, List.map_map]
  apply List.map_congr_left
  intro q _
  simp only [Function.comp_apply]
  split
  · next heq => exact heq.symm
  · rfl

/-- `upsertByVersion` keeps version keys free of duplicates. -/
theorem upsertByVersion_nodup (l : List Snapshot) (p : Snapshot)
    (h : (l.map Snapshot.version).Nodup) :
    ((upsertByVersion l p).map Snapshot.version).Nodup := by
  by_cases hany : (l.any (fun q => q.version == p.version)) = true
  · rw [upsertByVersion_map_version_of_any l p hany]
    exact h
  · unfold upsertByVersion
    rw [if_neg hany]
    have hnot : p.version ∉ l.map Snapshot.version := by
      intro hmem
      rcases List.mem_map.mp hmem with ⟨q, hq, hqv⟩
      exact hany (List.any_eq_true.mpr ⟨q, hq, by simp [hqv]⟩)
    simp [List.nodup_append, h, hnot]

/-- Existing version keys survive an upsert. -/
theorem mem_map_version_upsertByVersion (l : List Snapshot) (p : Snapshot)
    (v : Nat) (h : v ∈ l.map Snapshot.version) :
    v ∈ (upsertByVersion l p).map Snapshot.version := by
  by_cases hany : (l.any (fun q => q.version == p.version)) = true
  · rwa [upsertByVersion_map_version_of_any l p hany]
  · unfold upsertByVersion
    rw [if_neg hany]
    simp only [List.map_append, List.mem_append]
    exact Or.inl h

/-- The upserted snapshot's version key is present after the upsert. -/
theorem version_mem_upsertByVersion (l : List Snapshot) (p : Snapshot) :
    p.version ∈ (upsertByVersion l p).map Snapshot.version := by
  unfold upsertByVersion
  split
  · next hany =>
    rcases List.any_eq_true.mp hany with ⟨q, hq, hqv⟩
    refine List.mem_map.mpr ⟨p, ?_, rfl⟩
    refine List.mem_map.mpr ⟨q, hq, ?_⟩
    rw [if_pos (by simpa using hqv)]
  · simp

/-- After an upsert, any entry carrying the upserted version is the upserted
snapshot itself (later entries win ties). -/
theorem eq_of_version_eq_upsertByVersion (l : List Snapshot) (p q : Snapshot)
    (hq : q ∈ upsertByVersion l p) (hv : q.version = p.version) : q = p := by
  unfold upsertByVersion at hq
  split at hq
  · next hany =>
    rcases List.mem_map.mp hq with ⟨r, hr, hrq⟩
    by_cases hrv : r.version = p.version
    · rw [if_pos hrv] at hrq
      exact hrq.symm
    · rw [if_neg hrv] at hrq
      exact absurd (hrq ▸ hv) hrv
  · next hany =>
    rcases List.mem_append.mp hq with h | h
    · exfalso
      exact hany (List.any_eq_true.mpr ⟨q, h, by simp [hv]⟩)
    · simpa using h

/-- Version-key uniqueness of the dedupe fold, for any accumulator. -/
theorem dedupe_fold_nodup (cs : List Snapshot) :
    ∀ acc : List Snapshot, (acc.map Snapshot.version).Nodup →
      ((cs.foldl upsertByVersion acc).map Snapshot.version).Nodup := by
  induction cs with
  | nil => intro acc h; simpa using h
  | cons c rest ih =>
    intro acc h
    exact ih (upsertByVersion acc c) (upsertByVersion_nodup acc c h)

/-- The deduplicated candidate list has pairwise-distinct version numbers. -/
theorem dedupeByVersion_nodup (cs : List Snapshot) :
    ((dedupeByVersion cs).map Snapshot.version).Nodup :=
  dedupe_fold_nodup cs [] (by simp)

/-- Version keys already in the accumulator survive the dedupe fold. -/
theorem mem_map_version_dedupe_fold (cs : List Snapshot) :
    ∀ (acc : List Snapshot) (v : Nat), v ∈ acc.map Snapshot.version →
      v ∈ (cs.foldl upsertByVersion acc).map Snapshot.version := by
  induction cs with
  | nil => intro acc v h; simpa using h
  | cons c rest ih =>
    intro acc v h
    exact ih (upsertByVersion acc c) v (mem_map_version_upsertByVersion acc c v h)

/-- The live document's version number appears in the deduplicated
candidates built from `history ++ [live]`. -/
theorem live_version_mem_dedupe (hist : List Snapshot) (p : Snapshot) :
    p.version ∈ (dedupeByVersion (hist ++ [p])).map Snapshot.version := by
  unfold dedupeByVersion
  rw [List.foldl_append]
  exact version_mem_upsertByVersion (hist.foldl upsertByVersion []) p

/-- In the deduplicated candidates built from `history ++ [live]`, the entry
carrying the live version is the live document (the live document overrides
any history entry sharing its version). -/
theorem live_overrides_in_dedupe (hist : List Snapshot) (p q : Snapshot)
    (hq : q ∈ dedupeByVersion (hist ++ [p])) (hv : q.version = p.version) :
    q = p := by
  unfold dedupeByVersion at hq
  rw [List.foldl_append] at hq
  exact eq_of_version_eq_upsertByVersion (hist.foldl upsertByVersion []) p q hq hv

/-- In a list with pairwise-distinct version numbers containing `v`, exactly
one entry carries version `v`. -/
theorem countP_version_eq_one (l : List Snapshot) (v : Nat)
    (hnd : (l.map Snapshot.version).Nodup) (hv : v ∈ l.map Snapshot.version) :
    l.countP (fun q => decide (q.version = v)) = 1 := by
  induction l with
  | nil => simp at hv
  | cons a rest ih =>
    simp only [List.map_cons, List.nodup_cons] at hnd
    rcases hnd with ⟨hna, hnr⟩
    by_cases hav : a.version = v
    · have hrest : rest.countP (fun q => decide (q.version = v)) = 0 := by
        apply List.countP_eq_zero.mpr
        intro q hq
        simp only [decide_eq_true_eq]
        intro hqv
        exact hna (hav ▸ hqv ▸ List.mem_map_of_mem Snapshot.version hq)
      rw [List.countP_cons]
      simp [hav, hrest]
    · have hvr : v ∈ rest.map Snapshot.version := by
        have hv2 : v ∈ Snapshot.version a :: rest.map Snapshot.version := by
          simpa only [List.map_cons] using hv
        rcases List.mem_cons.mp hv2 with h | h
        · exact absurd h.symm hav
        · exact h
      rw [List.countP_cons]
      simp [hav, ih hnr hvr]

/-- C3: the version listing is strictly ascending in version number; an
entry is marked current exactly when its version equals the live version;
exactly one entry is marked current; the entry at the live version carries
the live document's data (the live document overrides a history entry of
equal version); and on a document with history versions 1, 3, 5 and a live
version 5 the listing is exactly three ascending entries with 5 current. -/
theorem version_listing_correct (plan : AccountPlan) :
    List.Pairwise (fun a b : VersionEntry => a.actualVersion < b.actualVersion)
      (availableVersions plan)
    ∧ (∀ e ∈ availableVersions plan, (e.isCurrent = true ↔ e.actualVersion = plan.version))
    ∧ (availableVersions plan).countP (fun e => e.isCurrent) = 1
    ∧ (∀ e ∈ availableVersions plan, e.actualVersion = plan.version →
        e.updatedAt = plan.updatedAt ∧ e.isCurrent = true)
    ∧ availableVersions livePlan5
        = [{ actualVersion := 1, displayVersion := 1, updatedAt := "t1", isCurrent := false },
           { actualVersion := 3, displayVersion := 3, updatedAt := "t3", isCurrent := false },
           { actualVersion := 5, displayVersion := 5, updatedAt := "t5", isCurrent := true }] := by
  have hperm : List.Perm
      (List.insertionSort snapLE (dedupeByVersion (plan.history ++ [plan.toSnapshot])))
      (dedupeByVersion (plan.history ++ [plan.toSnapshot])) :=
    List.perm_insertionSort snapLE _
  have hsorted : List.Sorted snapLE
      (List.insertionSort snapLE (dedupeByVersion (plan.history ++ [plan.toSnapshot]))) :=
    List.sorted_insertionSort snapLE _
  have hnodupS :
      ((List.insertionSort snapLE (dedupeByVersion (plan.history ++ [plan.toSnapshot]))).map
        Snapshot.version).Nodup :=
    (hperm.map Snapshot.version).nodup_iff.mpr (dedupeByVersion_nodup _)
  refine ⟨?_, ?_, ?_, ?_, by decide⟩
  · have hne : List.Pairwise (fun a b : Snapshot => a.version ≠ b.version)
        (List.insertionSort snapLE (dedupeByVersion (plan.history ++ [plan.toSnapshot]))) :=
      List.pairwise_map.mp hnodupS
    have hlt : List.Pairwise (fun a b : Snapshot => a.version < b.version)
        (List.insertionSort snapLE (dedupeByVersion (plan.history ++ [plan.toSnapshot]))) :=
      (hsorted.and hne).imp (fun h => lt_of_le_of_ne h.1 h.2)
    exact List.pairwise_map.mpr hlt
  · intro e he
    rcases List.mem_map.mp he with ⟨q, _, rfl⟩
    simp
  · unfold availableVersions
    rw [List.countP_map]
    have hcnt :
        (List.insertionSort snapLE (dedupeByVersion (plan.history ++ [plan.toSnapshot]))).countP
          (fun q => decide (q.version = plan.version))
        = (dedupeByVersion (plan.history ++ [plan.toSnapshot])).countP
          (fun q => decide (q.version = plan.version)) :=
      hperm.countP_eq _
    have hone :
        (dedupeByVersion (plan.history ++ [plan.toSnapshot])).countP
          (fun q => decide (q.version = plan.version)) = 1 :=
      countP_version_eq_one _ plan.version (dedupeByVersion_nodup _)
        (live_version_mem_dedupe plan.history plan.toSnapshot)
    simpa [Function.comp] using hcnt.trans hone
  · intro e he hv
    rcases List.mem_map.mp he with ⟨q, hq, rfl⟩
    have hqd : q ∈ dedupeByVersion (plan.history ++ [plan.toSnapshot]) :=
      hperm.subset hq
    have hq5 : q = plan.toSnapshot :=
      live_overrides_in_dedupe plan.history plan.toSnapshot q hqd (by simpa using hv)
    subst hq5
    simp [AccountPlan.toSnapshot]

/-- Witness for C3 at `livePlan5`: the version-5 entry is in the listing, is
current exactly because it carries the live version, and shows the live
document's data. -/
theorem version_listing_correct_witness :
    ({ actualVersion := 5, displayVersion := 5, updatedAt := "t5", isCurrent := true } : VersionEntry)
      ∈ availableVersions livePlan5
    ∧ (({ actualVersion := 5, displayVersion := 5, updatedAt := "t5", isCurrent := true } : VersionEntry).isCurrent = true
        ↔ ({ actualVersion := 5, displayVersion := 5, updatedAt := "t5", isCurrent := true } : VersionEntry).actualVersion = livePlan5.version)
    ∧ ({ actualVersion := 5, displayVersion := 5, updatedAt := "t5", isCurrent := true } : VersionEntry).updatedAt = livePlan5.updatedAt :=
  ⟨by decide,
    (version_listing_correct livePlan5).2.1 _ (by decide),
    ((version_listing_correct livePlan5).2.2.2.1 _ (by decide) (by decide)).1⟩

/-- Witness for C6: a concrete failed send keeps the optimistic user message
and appends the synthetic error message. -/
theorem failure_path_preserves_user_message_witness :
    trimStr "hello" ≠ ""
    ∧ (handleSendFailure (some demoUser) (some "p1") demoChatState "hello" "11"
        "t1" false 500 "cid" "e1" "te").messages
      = demoChatState.messages
          ++ [mkUserMessage "11" "hello" "t1", errorChatMessage "e1" "te"] :=
  ⟨by decide,
    (failure_path_preserves_user_message demoUser (some "p1") demoChatState
      "hello" "11" "t1" 500 "cid" "e1" "te" (by decide)).2.2.1⟩
